import Mathlib

/-!
# NutriLens backend — verification of the specification against the code

Shallow embedding of the NutriLens meal-logging backend
(`backend/app/services/nutrition.py`, `backend/app/services/analysis.py`,
`backend/app/api/routes_meals.py`, `backend/app/db/sqlite_db_cloud.py`,
`backend/app/db/seed.py`) and proofs of the specification's claims about it.

Modelling conventions:
* Python text is modelled as `List Nat` of Unicode code points; the helper `S`
  turns a Lean string literal into that form.  `str.lower()` / `str.strip()`
  are modelled for the ASCII range that the repository's food names and labels
  inhabit.
* Python `float` arithmetic is modelled exactly over `ℚ`.  Python's built-in
  `round` rounds halves to even (banker's rounding); `roundHalfEven` models
  `round(x)` and `roundTo1` models `round(x, 1)`.
* Fallible code returns `Option`/`Except`.
-/

/-- Helper: `S s` is the list of Unicode code points of `s` — the model of a Python
string as a list of characters. -/
def S (s : String) : List Nat := s.toList.map Char.toNat

/-- Python's `round(x)` on an exact value: round half to even. -/
def roundHalfEven (q : ℚ) : ℤ :=
  let n : ℤ := ⌊q⌋
  if q - n < 1/2 then n
  else if 1/2 < q - n then n + 1
  else if n % 2 = 0 then n else n + 1

/-- Python's `round(x, 1)` on an exact value: round to one decimal place,
halves to even. -/
def roundTo1 (q : ℚ) : ℚ := (roundHalfEven (q * 10) : ℚ) / 10

/-- Rounding half away from zero, as the specification's
`round_half_away_from_zero` describes the kcal rounding. -/
def roundHalfAwayFromZero (q : ℚ) : ℤ :=
  if 0 ≤ q then ⌊q + 1/2⌋ else ⌈q - 1/2⌉

-- ─── Food reference data (`app/db/models.py` Food / food dicts) ─────────────

/-- A food reference entry: identifier, display name and per-100 g macro
profile (`foods` table row / `NUTRITION_DB` value dict). -/
structure Food where
  food_id : List Nat
  name : List Nat
  kcal_per_100g : ℚ
  protein_g_per_100g : ℚ
  carbs_g_per_100g : ℚ
  fat_g_per_100g : ℚ
  deriving DecidableEq, Repr

/-- A computed macro snapshot (`Macros` schema): integer kcal, decimal
protein/carbs/fat grams. -/
structure Macros where
  kcal : ℤ
  protein_g : ℚ
  carbs_g : ℚ
  fat_g : ℚ
  deriving DecidableEq, Repr

/-- Model of `compute_macros_from_food` (`app/services/nutrition.py`): scale a food's
per-100 g profile by `grams / 100`, kcal via `int(round(·))`, the gram fields
via `round(·, 1)`. -/
def compute_macros_from_food (food : Food) (grams : ℤ) : Macros :=
  let factor : ℚ := (grams : ℚ) / 100
  { kcal := roundHalfEven (food.kcal_per_100g * factor)
    protein_g := roundTo1 (food.protein_g_per_100g * factor)
    carbs_g := roundTo1 (food.carbs_g_per_100g * factor)
    fat_g := roundTo1 (food.fat_g_per_100g * factor) }

/-- The in-memory `NUTRITION_DB` of `app/services/nutrition.py`, keyed by
lower-case name, in insertion order. -/
def NUTRITION_DB : List (List Nat × Food) :=
  [ (S "white rice",
     ⟨S "white_rice", S "white rice", 130, 2.7, 28.7, 0.3⟩)
  , (S "chicken breast",
     ⟨S "chicken_breast", S "chicken breast", 165, 36.0, 0.0, 0.9⟩)
  , (S "broccoli",
     ⟨S "broccoli", S "broccoli", 34, 3.6, 5.6, 0.4⟩)
  , (S "olive oil",
     ⟨S "olive_oil", S "olive oil", 884, 0.0, 0.0, 100.0⟩)
  , (S "mixed grain rice",
     ⟨S "brown_rice", S "brown rice", 123, 2.6, 25.6, 1.0⟩) ]

/-- Python `str.lower()` on one code point (ASCII range, which is all the
repository's labels and names use). -/
def pyLowerChar (c : Nat) : Nat :=
  if 65 ≤ c ∧ c ≤ 90 then c + 32 else c

/-- Python `str.lower()`. -/
def pyLower (s : List Nat) : List Nat := s.map pyLowerChar

/-- Python whitespace (the ASCII whitespace code points). -/
def isPySpace (c : Nat) : Bool :=
  c = 32 ∨ c = 9 ∨ c = 10 ∨ c = 13 ∨ c = 11 ∨ c = 12

/-- Python `str.strip()`: drop whitespace from both ends. -/
def pyStrip (s : List Nat) : List Nat :=
  (s.dropWhile isPySpace).rdropWhile isPySpace

/-- Model of `_normalize` (`app/services/nutrition.py`): `name.lower().strip()`. -/
def pyNormalize (s : List Nat) : List Nat := pyStrip (pyLower s)

/-- Model of `NUTRITION_DB.get(food_name.lower())`: dictionary lookup by the lowered
label. -/
def nutritionLookup (food_name : List Nat) : Option Food :=
  (NUTRITION_DB.find? (fun kv => kv.fst = pyLower food_name)).map Prod.snd

/-- Model of `compute_macros` (`app/services/nutrition.py`): look the food up in
`NUTRITION_DB` by lowered name (`ValueError` → `none`), then
`int(round(grams * kcal_per_100g / 100))` and `round(grams * · / 100, 1)`. -/
def compute_macros (food_name : List Nat) (grams : ℤ) : Option Macros :=
  match nutritionLookup food_name with
  | none => none
  | some fd =>
      some { kcal := roundHalfEven ((grams : ℚ) * fd.kcal_per_100g / 100)
             protein_g := roundTo1 ((grams : ℚ) * fd.protein_g_per_100g / 100)
             carbs_g := roundTo1 ((grams : ℚ) * fd.carbs_g_per_100g / 100)
             fat_g := roundTo1 ((grams : ℚ) * fd.fat_g_per_100g / 100) }

/-- The seed table's white-rice entry (`app/db/seed.py`, and the exact-macro
values shared with `NUTRITION_DB`). -/
def whiteRiceFood : Food :=
  ⟨S "white_rice", S "white rice", 130, 2.7, 28.7, 0.3⟩

-- ─── Mock analysis service (`app/services/analysis.py`) ─────────────────────

/-- The `GramsRange` schema: static min/max gram estimate. -/
structure GramsRange where
  min : ℤ
  max : ℤ
  deriving DecidableEq, Repr

/-- A canned analysis template (`CANNED_FOODS` value dict). -/
structure CannedFood where
  label : List Nat
  label_confidence : ℚ
  grams_estimate : ℤ
  grams_range : GramsRange
  grams_confidence : ℚ
  macros : Macros
  deriving DecidableEq, Repr

/-- The `AnalyzeItem` schema. -/
structure AnalyzeItem where
  item_id : List Nat
  label : List Nat
  label_confidence : ℚ
  grams_estimate : ℤ
  grams_range : GramsRange
  grams_confidence : ℚ
  macros : Macros
  deriving DecidableEq, Repr

/-- The `AnalyzeMealResponse` schema. -/
structure AnalyzeMealResponse where
  overall_confidence : ℚ
  needs_more_photos : Bool
  suggested_next_shots : List (List Nat)
  items : List AnalyzeItem
  warnings : List (List Nat)
  deriving DecidableEq, Repr

/-- The `CANNED_FOODS` dict of `app/services/analysis.py`, in insertion
order. -/
def CANNED_FOODS : List (List Nat × CannedFood) :=
  [ (S "white_rice",
     ⟨S "white rice", 0.85, 180, ⟨130, 240⟩, 0.65, ⟨234, 4.3, 51.5, 0.6⟩⟩)
  , (S "chicken_breast",
     ⟨S "chicken breast", 0.88, 150, ⟨100, 200⟩, 0.70, ⟨248, 53.9, 0.0, 1.4⟩⟩)
  , (S "broccoli",
     ⟨S "broccoli", 0.80, 200, ⟨150, 250⟩, 0.60, ⟨68, 7.2, 11.2, 0.9⟩⟩)
  , (S "olive_oil",
     ⟨S "olive oil", 0.70, 15, ⟨10, 20⟩, 0.50, ⟨135, 0.0, 0.0, 15.0⟩⟩)
  , (S "rice_mixed",
     ⟨S "mixed grain rice", 0.72, 200, ⟨150, 260⟩, 0.55, ⟨260, 6.5, 56.0, 1.0⟩⟩) ]

/-- Python `needle in hay` on strings: substring test. -/
def strIn (needle : List Nat) : List Nat → Bool
  | [] => needle.isEmpty
  | c :: rest => needle.isPrefixOf (c :: rest) || strIn needle rest

/-- Selection `food_keys[hash_int % len(food_keys)]` followed by
`CANNED_FOODS[food_key]`: the keys are pairwise distinct, so indexing the key
list and then looking the key up in the dict yields the entry at that index. -/
def selectedCanned (hash_int : ℕ) : List Nat × CannedFood :=
  CANNED_FOODS.get ⟨hash_int % CANNED_FOODS.length, Nat.mod_lt _ (by decide)⟩

/-- The `AnalyzeItem` built from a canned template (`item_id="tmp-1"`). -/
def cannedItem (entry : List Nat × CannedFood) : AnalyzeItem :=
  { item_id := S "tmp-1"
    label := entry.snd.label
    label_confidence := entry.snd.label_confidence
    grams_estimate := entry.snd.grams_estimate
    grams_range := entry.snd.grams_range
    grams_confidence := entry.snd.grams_confidence
    macros := entry.snd.macros }

/-- Model of `analyze_images_deterministic` (`app/services/analysis.py`).

`digestInt` stands for `int.from_bytes(hashlib.md5(b).digest(), 'big')`: the
MD5 digest of a byte string read as a big-endian integer.  `hashlib` is
outside the repository, so the digest is a parameter of the model; every claim
below holds for an arbitrary digest function, in particular for MD5 itself.
Raising `ValueError` on an empty list is modelled by `Except.error`; the
metadata argument is accepted at any type, as the function never reads it. -/
def analyze_images_deterministic (digestInt : List Nat → ℕ) {M : Type}
    (image_bytes : List (List Nat)) (metadata : M) :
    Except (List Nat) AnalyzeMealResponse :=
  match image_bytes with
  | [] => Except.error (S "At least one image required")
  | first :: rest =>
      let entry := selectedCanned (digestInt first)
      let item := cannedItem entry
      let photo_count := (first :: rest).length
      let needs_more := photo_count < 5
      let suggested_shots : List (List Nat) :=
        if needs_more then
          [S "top_down", S "lower_left_angle", S "lower_right_angle"]
        else []
      let overall_conf : ℚ := if photo_count < 5 then 0.65 else 0.75
      Except.ok
        { overall_confidence := overall_conf
          needs_more_photos := needs_more
          suggested_next_shots := suggested_shots
          items := [item]
          warnings := if strIn (S "oil") entry.fst then
              [S "oil_sauce_uncertain"] else [] }

-- ─── Fuzzy food matching (`get_food_fuzzy`, difflib) ────────────────────────

/-- Length of the common run of equal elements at the heads of two lists. -/
def commonRunLen : List Nat → List Nat → Nat
  | a :: as, b :: bs => if a = b then commonRunLen as bs + 1 else 0
  | _, _ => 0

/-- Model of `SequenceMatcher.find_longest_match` on the windows `a[alo:ahi]`,
`b[blo:bhi]` with no junk (the labels and names here are far below the
200-character autojunk threshold, so `difflib`'s junk machinery never fires):
the longest matching block, earliest in `a` and then earliest in `b`,
returned as `(i, j, size)`. -/
def bestMatchIn (a b : List Nat) (alo ahi blo bhi : Nat) : Nat × Nat × Nat :=
  ((List.range' alo (ahi - alo)).flatMap fun i =>
      (List.range' blo (bhi - blo)).map fun j =>
        (i, j, min (commonRunLen (a.drop i) (b.drop j)) (min (ahi - i) (bhi - j)))).foldl
    (fun best c => if best.2.2 < c.2.2 then c else best) (alo, blo, 0)

/-- Total size of the matching blocks `SequenceMatcher.get_matching_blocks`
finds: recursively split each window at its longest match.  The fuel bounds
the recursion depth; each split strictly shrinks the window, so
`a.length + b.length + 1` always suffices. -/
def matchingTotal (a b : List Nat) : Nat → Nat → Nat → Nat → Nat → Nat
  | 0, _, _, _, _ => 0
  | fuel + 1, alo, ahi, blo, bhi =>
      let m := bestMatchIn a b alo ahi blo bhi
      if m.2.2 = 0 then 0
      else
        matchingTotal a b fuel alo m.1 blo m.2.1 + m.2.2 +
          matchingTotal a b fuel (m.1 + m.2.2) ahi (m.2.1 + m.2.2) bhi

/-- Model of `SequenceMatcher(None, a, b).ratio()`: `2 * M / (len(a) + len(b))` where
`M` is the total matched size (`1.0` when both are empty).  Modelled exactly
over `ℚ`. -/
def mRatio (a b : List Nat) : ℚ :=
  let total_matched := matchingTotal a b (a.length + b.length + 1) 0 a.length 0 b.length
  let length := a.length + b.length
  if length = 0 then 1 else 2 * (total_matched : ℚ) / (length : ℚ)

/-- Python string `<` (lexicographic on code points). -/
def lexLt : List Nat → List Nat → Bool
  | _, [] => false
  | [], _ :: _ => true
  | a :: as, b :: bs => if a < b then true else if a = b then lexLt as bs else false

/-- Model of `difflib.get_close_matches(word, possibilities, n=1, cutoff)`: keep the
possibilities whose ratio against `word` is at least the cutoff (the
`real_quick_ratio`/`quick_ratio` prefilters are upper bounds of `ratio`, so
they do not change the accepted set) and return the largest by
`(score, string)` — on equal scores the lexicographically larger string, and
among fully equal pairs the earliest. -/
def getCloseMatch (word : List Nat) (possibilities : List (List Nat))
    (cutoff : ℚ) : Option (List Nat) :=
  let result := possibilities.filterMap fun x =>
    if cutoff ≤ mRatio x word then some (mRatio x word, x) else none
  match result with
  | [] => none
  | c :: cs =>
      some ((cs.foldl (fun best cand =>
        if decide (best.1 < cand.1) ||
            (decide (best.1 = cand.1) && lexLt best.2 cand.2)
        then cand else best) c).2)

/-- Model of `get_food_by_name` of the SQLite backend
(`app/db/sqlite_db_cloud.py`): first food with
`LOWER(name) = LOWER(argument.strip())`, in insertion order. -/
def get_food_by_name (foods : List Food) (name : List Nat) : Option Food :=
  foods.find? fun f => pyLower f.name == pyLower (pyStrip name)

/-- Model of `get_food_fuzzy` (`app/services/nutrition.py`): normalize the label, then
exact DB name match, then first substring match in either direction, then
best `difflib` match with cutoff 0.55. -/
def get_food_fuzzy (foods : List Food) (label : List Nat) : Option Food :=
  let norm_label := pyNormalize label
  match get_food_by_name foods norm_label with
  | some food => some food
  | none =>
      match foods.find? (fun f =>
          strIn norm_label (pyNormalize f.name) ||
            strIn (pyNormalize f.name) norm_label) with
      | some f => some f
      | none =>
          let names := foods.map fun f => pyNormalize f.name
          match getCloseMatch norm_label names 0.55 with
          | some m => foods.find? fun f => pyNormalize f.name == m
          | none => none

/-- The specification §4.1 resolver contract, written from the spec's words:
on the normalized (lowercased, trimmed) label, in strict priority order —
exact name match, then first substring match in either direction, then the
best approximate-similarity match if its score is at least 0.55, else not
found. -/
def resolveThreeTier (foods : List Food) (label : List Nat) : Option Food :=
  let norm := pyNormalize label
  match foods.find? (fun f => pyNormalize f.name == norm) with
  | some f => some f
  | none =>
      match foods.find? (fun f =>
          strIn norm (pyNormalize f.name) || strIn (pyNormalize f.name) norm) with
      | some f => some f
      | none =>
          match getCloseMatch norm (foods.map fun f => pyNormalize f.name) 0.55 with
          | some m => foods.find? fun f => pyNormalize f.name == m
          | none => none

-- ─── Meal store and routes (`routes_meals.py`, `sqlite_db_cloud.py`) ────────

/-- An embedded meal item as stored by `save_meal`
(`{"food_id", "label", "grams", **macros}`). -/
structure StoredItem where
  food_id : List Nat
  label : List Nat
  grams : ℤ
  kcal : ℤ
  protein_g : ℚ
  carbs_g : ℚ
  fat_g : ℚ
  deriving DecidableEq, Repr

/-- Instants are modelled as minutes since the epoch; `dayOf` is the calendar
day an instant falls on — the model of the `YYYY-MM-DD` date part
(`timestamp[:10]` / `date.isoformat()`). -/
def dayOf (ts : ℤ) : ℤ := Int.fdiv ts 1440

/-- A stored meal row (`meals` table: id, timestamp, `date_str`, notes,
embedded items). -/
structure StoredMeal where
  meal_id : List Nat
  timestamp : ℤ
  date_str : ℤ
  notes : List Nat
  items : List StoredItem
  deriving DecidableEq, Repr

/-- The database state: the foods table and the meals table. -/
structure DBState where
  foods : List Food
  meals : List StoredMeal
  deriving DecidableEq, Repr

/-- Model of `save_meal` of the SQLite backend: derive `date_str` from the timestamp's
date part and insert the row. -/
def db_save_meal (meals : List StoredMeal) (meal_id : List Nat)
    (timestamp : ℤ) (notes : List Nat) (items : List StoredItem) :
    List StoredMeal :=
  meals ++ [⟨meal_id, timestamp, dayOf timestamp, notes, items⟩]

/-- Model of `get_meals_by_date`: all meal rows whose `date_str` equals the given
date. -/
def get_meals_by_date (meals : List StoredMeal) (date : ℤ) : List StoredMeal :=
  meals.filter fun m => m.date_str == date

/-- An item of a `SaveMealRequest`: label, grams and client-computed
macros. -/
structure MealItemReq where
  label : List Nat
  grams : ℤ
  macros : Macros
  deriving DecidableEq, Repr

/-- The `SaveMealRequest` schema. -/
structure SaveMealRequest where
  items : List MealItemReq
  timestamp : Option ℤ
  notes : Option (List Nat)
  deriving DecidableEq, Repr

/-- The `POST /meals` response dict. -/
structure SaveMealResponse where
  meal_id : List Nat
  timestamp : ℤ
  item_count : ℕ
  total_kcal : ℤ
  unmatched_labels : List (List Nat)
  status : List Nat
  deriving DecidableEq, Repr

/-- One iteration of the `save_meal` item loop: resolve the label; on a miss
embed the client macros under the `"unknown"` sentinel and record the label
as unmatched, otherwise recompute macros from the matched food. -/
def saveStep (foods : List Food)
    (acc : List StoredItem × ℤ × List (List Nat)) (item : MealItemReq) :
    List StoredItem × ℤ × List (List Nat) :=
  match get_food_fuzzy foods item.label with
  | none =>
      (acc.1 ++ [⟨S "unknown", item.label, item.grams, item.macros.kcal,
          item.macros.protein_g, item.macros.carbs_g, item.macros.fat_g⟩],
       acc.2.1 + item.macros.kcal, acc.2.2 ++ [item.label])
  | some food =>
      let macros := compute_macros_from_food food item.grams
      (acc.1 ++ [⟨food.food_id, item.label, item.grams, macros.kcal,
          macros.protein_g, macros.carbs_g, macros.fat_g⟩],
       acc.2.1 + macros.kcal, acc.2.2)

/-- Model of `save_meal` (`POST /meals`, `app/api/routes_meals.py`): embed every item
(resolved or not), store the meal, and answer with id, timestamp, item count,
total kcal, unmatched labels and status.  `meal_id` (a fresh UUID) and `now`
(`datetime.utcnow()`) are inputs of the model. -/
def save_meal_route (state : DBState) (meal_id : List Nat) (now : ℤ)
    (req : SaveMealRequest) : DBState × SaveMealResponse :=
  let timestamp := req.timestamp.getD now
  let res := req.items.foldl (saveStep state.foods) ([], 0, [])
  let newMeals := db_save_meal state.meals meal_id timestamp
    (req.notes.getD []) res.1
  (⟨state.foods, newMeals⟩,
   ⟨meal_id, timestamp, req.items.length, res.2.1, res.2.2, S "saved"⟩)

/-- The embedded item `save_meal` produces for one request item. -/
def embedOne (foods : List Food) (item : MealItemReq) : StoredItem :=
  match get_food_fuzzy foods item.label with
  | none =>
      ⟨S "unknown", item.label, item.grams, item.macros.kcal,
        item.macros.protein_g, item.macros.carbs_g, item.macros.fat_g⟩
  | some food =>
      ⟨food.food_id, item.label, item.grams,
        (compute_macros_from_food food item.grams).kcal,
        (compute_macros_from_food food item.grams).protein_g,
        (compute_macros_from_food food item.grams).carbs_g,
        (compute_macros_from_food food item.grams).fat_g⟩

/-- A per-meal summary in the `GET /meals/today` response. -/
structure MealSummary where
  meal_id : List Nat
  timestamp : ℤ
  item_count : ℕ
  total_kcal : ℤ
  deriving DecidableEq, Repr

/-- The `MealTotalResponse` schema. -/
structure MealTotalResponse where
  total_kcal : ℤ
  total_protein_g : ℚ
  total_carbs_g : ℚ
  total_fat_g : ℚ
  meal_count : ℕ
  meals : List MealSummary
  deriving DecidableEq, Repr

/-- The `GET /meals/today` aggregation over the meals of a given calendar
day: sum the macro snapshots embedded in each stored meal's items — the food
table is never consulted. -/
def get_meals_today_at (state : DBState) (today : ℤ) : MealTotalResponse :=
  let meals := get_meals_by_date state.meals today
  { total_kcal := (meals.map fun m => (m.items.map StoredItem.kcal).sum).sum
    total_protein_g :=
      roundTo1 (meals.map fun m => (m.items.map StoredItem.protein_g).sum).sum
    total_carbs_g :=
      roundTo1 (meals.map fun m => (m.items.map StoredItem.carbs_g).sum).sum
    total_fat_g :=
      roundTo1 (meals.map fun m => (m.items.map StoredItem.fat_g).sum).sum
    meal_count := meals.length
    meals := meals.map fun m =>
      ⟨m.meal_id, m.timestamp, m.items.length,
        (m.items.map StoredItem.kcal).sum⟩ }

/-- Model of `date.today()`: the server-local calendar date — the UTC clock shifted by
the server's UTC offset (in minutes). -/
def localToday (nowUtc tzOffset : ℤ) : ℤ := dayOf (nowUtc + tzOffset)

/-- Model of `get_meals_today` (`GET /meals/today`): aggregate the meals stored under
`date.today().isoformat()` — the server-local date, not the UTC date. -/
def get_meals_today_route (state : DBState) (nowUtc tzOffset : ℤ) :
    MealTotalResponse :=
  get_meals_today_at state (localToday nowUtc tzOffset)

-- ─── Food seeding (`seed_foods`) ────────────────────────────────────────────

/-- One iteration of `seed_foods`: skip the food if its `food_id` already
exists in the table (inserts made earlier in the same run are visible),
otherwise insert it and count it. -/
def seedStep (acc : List Food × ℕ) (food : Food) : List Food × ℕ :=
  if ((acc.1.find? fun f => f.food_id == food.food_id).isSome : Bool) then acc
  else (acc.1 ++ [food], acc.2 + 1)

/-- Model of `seed_foods` (`sqlite_db_cloud.py`, and the same check-then-insert loop
in `db/seed.py` and `firestore_db.py`): idempotent bulk insert keyed by
`food_id`, returning the new table and the number of rows inserted. -/
def seed_foods (store : List Food) (foods : List Food) : List Food × ℕ :=
  foods.foldl seedStep (store, 0)

/-- Every canned template's grams estimate lies inside its static range. -/
lemma canned_ranges_ok : ∀ e ∈ CANNED_FOODS,
    e.snd.grams_range.min ≤ e.snd.grams_estimate ∧
    e.snd.grams_estimate ≤ e.snd.grams_range.max := by
  intro e he
  fin_cases he <;> exact ⟨by decide, by decide⟩

/-- The selected canned entry is one of the dict's entries. -/
lemma selectedCanned_mem (hash : ℕ) : selectedCanned hash ∈ CANNED_FOODS :=
  List.get_mem _ _ _

/-- C1, counterexample: at white rice (130 kcal per 100 g) and 5 g the scaled
kcal value is 6.5; Python's `round` returns 6 (ties to even), while rounding
half away from zero as the claim states would give 7. -/
theorem compute_macros_kcal_not_half_away_from_zero :
    ¬ (compute_macros_from_food whiteRiceFood 5).kcal
        = roundHalfAwayFromZero (whiteRiceFood.kcal_per_100g * 5 / 100) := by
  with_unfolding_all decide

/-- C1 (amended): the macro calculator returns kcal equal to
`kcal_per_100g * g / 100` rounded half to even (Python `round`) to an integer,
and the three gram fields rounded to one decimal place; `compute_macros`
agrees with `compute_macros_from_food` on the `NUTRITION_DB` entry a label
resolves to (and is `none` exactly when the label is absent). -/
theorem compute_macros_rounding (f : Food) (g : ℤ) :
    (compute_macros_from_food f g).kcal
        = roundHalfEven (f.kcal_per_100g * g / 100)
    ∧ (compute_macros_from_food f g).protein_g
        = roundTo1 (f.protein_g_per_100g * g / 100)
    ∧ (compute_macros_from_food f g).carbs_g
        = roundTo1 (f.carbs_g_per_100g * g / 100)
    ∧ (compute_macros_from_food f g).fat_g
        = roundTo1 (f.fat_g_per_100g * g / 100)
    ∧ ∀ label, compute_macros label g
        = (nutritionLookup label).map fun fd => compute_macros_from_food fd g := by
  refine ⟨?_, ?_, ?_, ?_, ?_⟩
  · simp [compute_macros_from_food, mul_div_assoc]
  · simp [compute_macros_from_food, mul_div_assoc]
  · simp [compute_macros_from_food, mul_div_assoc]
  · simp [compute_macros_from_food, mul_div_assoc]
  · intro label
    cases h : nutritionLookup label with
    | none => simp [compute_macros, h]
    | some fd =>
        simp only [compute_macros, h, Option.map_some]
        have harg : ∀ x : ℚ, (g : ℚ) * x / 100 = x * ((g : ℚ) / 100) := by
          intro x; ring
        simp [compute_macros_from_food, harg]

/-- C2: the first image's bytes alone determine the returned item — any two
calls with identical first-image bytes return identical item lists (label,
confidences, grams estimate, grams range, macros), regardless of the other
images and of the metadata, even at different metadata types. -/
theorem analyze_item_determined_by_first_image (digestInt : List Nat → ℕ)
    {M₁ M₂ : Type} (b : List Nat) (t₁ t₂ : List (List Nat))
    (m₁ : M₁) (m₂ : M₂) :
    (analyze_images_deterministic digestInt (b :: t₁) m₁).map
        AnalyzeMealResponse.items
      = (analyze_images_deterministic digestInt (b :: t₂) m₂).map
        AnalyzeMealResponse.items := rfl

/-- C8: an empty image list is rejected with the input-validation error, and
every non-empty image list produces a result (no error). -/
theorem analyze_empty_images_error (digestInt : List Nat → ℕ) {M : Type}
    (m : M) :
    analyze_images_deterministic digestInt [] m
        = Except.error (S "At least one image required")
    ∧ ∀ (b : List Nat) (t : List (List Nat)),
        (analyze_images_deterministic digestInt (b :: t) m).isOk = true :=
  ⟨rfl, fun _ _ => rfl⟩

/-- C4: with fewer than 5 photos the response flags `needs_more_photos`, has
overall confidence 0.65 and the fixed non-empty list of suggested shots; with
5 or more photos it does not, has overall confidence 0.75 and no suggested
shots. -/
theorem analyze_photo_count_threshold (digestInt : List Nat → ℕ) {M : Type}
    (b : List Nat) (t : List (List Nat)) (m : M) (r : AnalyzeMealResponse)
    (h : analyze_images_deterministic digestInt (b :: t) m = Except.ok r) :
    ((b :: t).length < 5 →
      r.needs_more_photos = true ∧ r.overall_confidence = 0.65 ∧
      r.suggested_next_shots
        = [S "top_down", S "lower_left_angle", S "lower_right_angle"] ∧
      r.suggested_next_shots ≠ [])
    ∧ (5 ≤ (b :: t).length →
      r.needs_more_photos = false ∧ r.overall_confidence = 0.75 ∧
      r.suggested_next_shots = []) := by
  simp only [analyze_images_deterministic, Except.ok.injEq] at h
  subst h
  constructor
  · intro hlt
    simp only [List.length_cons] at hlt
    simp
    exact ⟨by omega, fun hc => absurd hc (by omega), by omega⟩
  · intro hge
    simp only [List.length_cons] at hge
    simp
    exact ⟨by omega, fun hc => absurd hc (by omega), by omega⟩

/-- Witness for C4: three photos of white rice (digest 0) flag
`needs_more_photos` with confidence 0.65 and the three suggested shots. -/
theorem analyze_photo_count_threshold_witness :
    (⟨0.65, true,
      [S "top_down", S "lower_left_angle", S "lower_right_angle"],
      [⟨S "tmp-1", S "white rice", 0.85, 180, ⟨130, 240⟩, 0.65,
        ⟨234, 4.3, 51.5, 0.6⟩⟩], []⟩ :
      AnalyzeMealResponse).needs_more_photos = true
    ∧ (⟨0.65, true,
      [S "top_down", S "lower_left_angle", S "lower_right_angle"],
      [⟨S "tmp-1", S "white rice", 0.85, 180, ⟨130, 240⟩, 0.65,
        ⟨234, 4.3, 51.5, 0.6⟩⟩], []⟩ :
      AnalyzeMealResponse).overall_confidence = 0.65 :=
  let R : AnalyzeMealResponse :=
    ⟨0.65, true,
      [S "top_down", S "lower_left_angle", S "lower_right_angle"],
      [⟨S "tmp-1", S "white rice", 0.85, 180, ⟨130, 240⟩, 0.65,
        ⟨234, 4.3, 51.5, 0.6⟩⟩], []⟩
  have H := analyze_photo_count_threshold (fun _ => 0) [] [[2], [3]] () R
    (by with_unfolding_all rfl)
  have h3 : ([([] : List Nat), [2], [3]]).length < 5 := by decide
  ⟨(H.1 h3).1, (H.1 h3).2.1⟩

/-- C9: every successful analysis contains exactly one item, and that item's
grams estimate lies within its grams range, whichever canned entry the digest
selects. -/
theorem analyze_single_item_in_range (digestInt : List Nat → ℕ) {M : Type}
    (b : List Nat) (t : List (List Nat)) (m : M) (r : AnalyzeMealResponse)
    (h : analyze_images_deterministic digestInt (b :: t) m = Except.ok r) :
    r.items.length = 1 ∧ ∀ it ∈ r.items,
      it.grams_range.min ≤ it.grams_estimate ∧
      it.grams_estimate ≤ it.grams_range.max := by
  simp only [analyze_images_deterministic, Except.ok.injEq] at h
  subst h
  refine ⟨rfl, ?_⟩
  intro it hit
  have hmem := canned_ranges_ok _ (selectedCanned_mem (digestInt b))
  simp only [List.mem_singleton] at hit
  subst hit
  exact hmem

/-- Witness for C9: with digest 0 and one photo the single item is the canned
white-rice entry, whose 180 g estimate lies within 130–240 g. -/
theorem analyze_single_item_in_range_witness :
    ([(⟨S "tmp-1", S "white rice", 0.85, 180, ⟨130, 240⟩, 0.65,
        ⟨234, 4.3, 51.5, 0.6⟩⟩ : AnalyzeItem)]).length = 1
    ∧ (⟨S "tmp-1", S "white rice", 0.85, 180, ⟨130, 240⟩, 0.65,
        ⟨234, 4.3, 51.5, 0.6⟩⟩ : AnalyzeItem).grams_estimate ≤ 240 :=
  let item : AnalyzeItem :=
    ⟨S "tmp-1", S "white rice", 0.85, 180, ⟨130, 240⟩, 0.65,
      ⟨234, 4.3, 51.5, 0.6⟩⟩
  have H := analyze_single_item_in_range (fun _ => 0) [] [] ()
    ⟨0.65, true, [S "top_down", S "lower_left_angle", S "lower_right_angle"],
      [item], []⟩ (by with_unfolding_all rfl)
  ⟨H.1, (H.2 item (by simp)).2⟩

lemma pyLowerChar_idem (c : Nat) : pyLowerChar (pyLowerChar c) = pyLowerChar c := by
  unfold pyLowerChar
  split_ifs <;> omega

lemma pyLower_idem (s : List Nat) : pyLower (pyLower s) = pyLower s := by
  simp only [pyLower, List.map_map]
  exact List.map_congr_left fun c _ => pyLowerChar_idem c

lemma isPySpace_pyLowerChar (c : Nat) : isPySpace (pyLowerChar c) = isPySpace c := by
  unfold pyLowerChar isPySpace
  split_ifs with h
  · rw [decide_eq_decide]
    omega
  · rfl

lemma rdropWhile_map (f : Nat → Nat) (p : Nat → Bool) (l : List Nat) :
    (l.map f).rdropWhile p = (l.rdropWhile (p ∘ f)).map f := by
  simp [List.rdropWhile, List.dropWhile_map, ← List.map_reverse]

lemma pyLower_pyStrip (s : List Nat) : pyLower (pyStrip s) = pyStrip (pyLower s) := by
  have hpf : (isPySpace ∘ pyLowerChar) = isPySpace := funext isPySpace_pyLowerChar
  simp only [pyStrip, pyLower, List.dropWhile_map, rdropWhile_map, hpf]

lemma dropWhile_eq_self_of_prefix (p : Nat → Bool) {v u : List Nat}
    (hpre : v <+: u) (hu : u.dropWhile p = u) : v.dropWhile p = v := by
  cases v with
  | nil => rfl
  | cons c v' =>
      obtain ⟨t, rfl⟩ := hpre
      rw [List.cons_append, List.dropWhile_cons] at hu
      rw [List.dropWhile_cons]
      by_cases hc : p c
      · simp only [hc, if_true] at hu
        have hlen := congrArg List.length hu
        have hle := (List.dropWhile_sublist (l := v' ++ t) (p := p)).length_le
        simp only [List.length_cons] at hlen
        omega
      · simp [hc]

lemma pyStrip_idem (s : List Nat) : pyStrip (pyStrip s) = pyStrip s := by
  have hu : (s.dropWhile isPySpace).dropWhile isPySpace = s.dropWhile isPySpace :=
    List.dropWhile_idempotent _ _
  have h1 : ((s.dropWhile isPySpace).rdropWhile isPySpace).dropWhile isPySpace
      = (s.dropWhile isPySpace).rdropWhile isPySpace :=
    dropWhile_eq_self_of_prefix _ (List.rdropWhile_prefix _ _) hu
  show ((pyStrip s).dropWhile isPySpace).rdropWhile isPySpace = pyStrip s
  rw [show pyStrip s = (s.dropWhile isPySpace).rdropWhile isPySpace from rfl]
  rw [h1, List.rdropWhile_idempotent]

lemma pyStrip_pyNormalize (s : List Nat) :
    pyStrip (pyNormalize s) = pyNormalize s := by
  simp only [pyNormalize]
  rw [pyStrip_idem]

lemma pyLower_pyNormalize (s : List Nat) :
    pyLower (pyNormalize s) = pyNormalize s := by
  simp only [pyNormalize]
  rw [pyLower_pyStrip, pyLower_idem]

lemma find?_congr_pred {α : Type} (l : List α) (p q : α → Bool)
    (h : ∀ x ∈ l, p x = q x) : l.find? p = l.find? q := by
  induction l with
  | nil => rfl
  | cons a t ih =>
      have ha := h a (List.mem_cons_self a t)
      by_cases hqa : q a = true
      · rw [List.find?_cons_of_pos _ (ha ▸ hqa), List.find?_cons_of_pos _ hqa]
      · have hpa : ¬p a = true := by rw [ha]; exact hqa
        rw [List.find?_cons_of_neg _ hpa, List.find?_cons_of_neg _ hqa]
        exact ih fun x hx => h x (List.mem_cons_of_mem _ hx)

/-- C3: on a store whose food names are already normalized (as every seeded
name is), `get_food_fuzzy` implements exactly the three-tier resolver of the
specification — exact match, then substring match either way, then the best
similarity match at cutoff 0.55, else none. -/
theorem get_food_fuzzy_three_tier (foods : List Food) (label : List Nat)
    (hnorm : ∀ f ∈ foods, pyNormalize f.name = f.name) :
    get_food_fuzzy foods label = resolveThreeTier foods label := by
  have hkey : pyLower (pyStrip (pyNormalize label)) = pyNormalize label := by
    rw [pyStrip_pyNormalize, pyLower_pyNormalize]
  have hpred : ∀ f ∈ foods,
      (pyLower f.name == pyLower (pyStrip (pyNormalize label)))
        = (pyNormalize f.name == pyNormalize label) := by
    intro f hf
    rw [hkey]
    have hfn : pyLower f.name = pyNormalize f.name := by
      conv_lhs => rw [← hnorm f hf]
      rw [pyLower_pyNormalize]
    rw [hfn]
  simp only [get_food_fuzzy, get_food_by_name, resolveThreeTier]
  rw [find?_congr_pred foods _ _ hpred]

set_option maxRecDepth 10000 in
/-- Witness for C3: on the seeded white-rice store the code resolver and the
spec's three-tier resolver agree for the label `" RICE "`. -/
theorem get_food_fuzzy_three_tier_witness :
    (∀ f ∈ [whiteRiceFood], pyNormalize f.name = f.name)
    ∧ get_food_fuzzy [whiteRiceFood] (S " RICE ")
        = resolveThreeTier [whiteRiceFood] (S " RICE ") :=
  ⟨by decide, get_food_fuzzy_three_tier _ _ (by decide)⟩

lemma saveStep_foldl (foods : List Food) (items : List MealItemReq)
    (acc : List StoredItem × ℤ × List (List Nat)) :
    items.foldl (saveStep foods) acc
      = (acc.1 ++ items.map (embedOne foods),
         acc.2.1 + (items.map fun it => (embedOne foods it).kcal).sum,
         acc.2.2 ++ (items.filter fun it =>
             (get_food_fuzzy foods it.label).isNone).map MealItemReq.label) := by
  induction items generalizing acc with
  | nil => simp
  | cons it rest ih =>
      rw [List.foldl_cons, ih]
      cases h : get_food_fuzzy foods it.label with
      | none =>
          simp [saveStep, embedOne, h, List.filter_cons, List.append_assoc,
            add_assoc]
      | some food =>
          simp [saveStep, embedOne, h, List.filter_cons, List.append_assoc,
            add_assoc]

/-- C6: `POST /meals` never fails on an unresolved label — the meal is stored
with one embedded item per request item; an item whose label resolves to no
food is embedded under the `"unknown"` sentinel with the client-supplied
macros and its label is reported in `unmatched_labels` (which lists exactly
the unresolved labels); a resolved item is embedded with macros recomputed
from the matched food. -/
theorem save_meal_unmatched_degrades (state : DBState) (meal_id : List Nat)
    (now : ℤ) (req : SaveMealRequest) :
    (save_meal_route state meal_id now req).2.status = S "saved"
    ∧ (save_meal_route state meal_id now req).1.meals
        = state.meals ++ [⟨meal_id, req.timestamp.getD now,
            dayOf (req.timestamp.getD now), req.notes.getD [],
            req.items.map (embedOne state.foods)⟩]
    ∧ (save_meal_route state meal_id now req).2.unmatched_labels
        = (req.items.filter fun it =>
            (get_food_fuzzy state.foods it.label).isNone).map MealItemReq.label
    ∧ ∀ it ∈ req.items, get_food_fuzzy state.foods it.label = none →
        embedOne state.foods it
          = ⟨S "unknown", it.label, it.grams, it.macros.kcal,
              it.macros.protein_g, it.macros.carbs_g, it.macros.fat_g⟩
        ∧ it.label ∈ (save_meal_route state meal_id now req).2.unmatched_labels := by
  have hun : (save_meal_route state meal_id now req).2.unmatched_labels
      = (req.items.filter fun it =>
          (get_food_fuzzy state.foods it.label).isNone).map MealItemReq.label := by
    simp [save_meal_route, saveStep_foldl]
  refine ⟨rfl, ?_, hun, ?_⟩
  · simp [save_meal_route, db_save_meal, saveStep_foldl]
  · intro it hit hnone
    refine ⟨by simp [embedOne, hnone], ?_⟩
    rw [hun]
    exact List.mem_map_of_mem _ (List.mem_filter.mpr ⟨hit, by simp [hnone]⟩)

set_option maxRecDepth 10000 in
/-- Witness for C6: saving a meal with the unresolvable label `"pizza"`
against the white-rice store reports `"pizza"` as unmatched. -/
theorem save_meal_unmatched_degrades_witness :
    S "pizza" ∈ (save_meal_route ⟨[whiteRiceFood], []⟩ (S "m1") 0
        ⟨[⟨S "pizza", 100, ⟨266, 11, 33, 10⟩⟩], none, none⟩).2.unmatched_labels :=
  ((save_meal_unmatched_degrades ⟨[whiteRiceFood], []⟩ (S "m1") 0
      ⟨[⟨S "pizza", 100, ⟨266, 11, 33, 10⟩⟩], none, none⟩).2.2.2
    ⟨S "pizza", 100, ⟨266, 11, 33, 10⟩⟩ (List.mem_singleton.mpr rfl)
    (by with_unfolding_all decide)).2

/-- C5: the daily-totals read path uses only the macro snapshots embedded in
the stored meals — two database states with the same meals but arbitrarily
different food tables produce identical `GET /meals/today` responses. -/
theorem meals_today_ignores_food_reference (foods₁ foods₂ : List Food)
    (meals : List StoredMeal) (now tz : ℤ) :
    get_meals_today_route ⟨foods₁, meals⟩ now tz
      = get_meals_today_route ⟨foods₂, meals⟩ now tz := rfl

/-- C7, failing input: `GET /meals/today` selects meals by the server-local
calendar day (`date.today()`), not the UTC day its own docstring promises.
On a server at UTC+8, a request at 1970-01-01 23:59 UTC (minute 1439) misses
a meal saved that same UTC day: the local day is already day 1, the UTC day
is day 0. -/
theorem meals_today_local_date_mismatch :
    (get_meals_today_route
        ⟨[], db_save_meal [] (S "m1") 1439 [] []⟩ 1439 480).meal_count = 0
    ∧ (get_meals_today_at
        ⟨[], db_save_meal [] (S "m1") 1439 [] []⟩ (dayOf 1439)).meal_count = 1
    ∧ dayOf 1439 = 0 ∧ localToday 1439 480 = 1 := by
  refine ⟨?_, ?_, ?_, ?_⟩ <;> with_unfolding_all decide

lemma find?_isSome_append {α : Type} (p : α → Bool) (l ext : List α)
    (h : (l.find? p).isSome) : ((l ++ ext).find? p).isSome := by
  induction l with
  | nil => simp at h
  | cons a t ih =>
      by_cases hpa : p a = true
      · rw [List.cons_append, List.find?_cons_of_pos _ hpa]
        simp
      · rw [List.find?_cons_of_neg _ hpa] at h
        rw [List.cons_append, List.find?_cons_of_neg _ hpa]
        exact ih h

lemma find?_isSome_append_right {α : Type} (p : α → Bool) (l ext : List α)
    (h : (ext.find? p).isSome) : ((l ++ ext).find? p).isSome := by
  induction l with
  | nil => simpa using h
  | cons a t ih =>
      by_cases hpa : p a = true
      · rw [List.cons_append, List.find?_cons_of_pos _ hpa]
        simp
      · rw [List.cons_append, List.find?_cons_of_neg _ hpa]
        exact ih

lemma seed_foods_extends (foods : List Food) :
    ∀ (store : List Food) (n : ℕ),
      ∃ ext, (foods.foldl seedStep (store, n)).1 = store ++ ext := by
  induction foods with
  | nil => exact fun store n => ⟨[], by simp⟩
  | cons f rest ih =>
      intro store n
      rw [List.foldl_cons]
      by_cases h : ((store.find? fun g => g.food_id == f.food_id).isSome) = true
      · have hstep : seedStep (store, n) f = (store, n) := by simp [seedStep, h]
        rw [hstep]
        exact ih store n
      · have hstep : seedStep (store, n) f = (store ++ [f], n + 1) := by
          simp [seedStep, h]
        rw [hstep]
        obtain ⟨ext, hext⟩ := ih (store ++ [f]) (n + 1)
        exact ⟨[f] ++ ext, by simpa [List.append_assoc] using hext⟩

lemma seed_foods_ids_present (foods : List Food) :
    ∀ (store : List Food) (n : ℕ), ∀ f ∈ foods,
      (((foods.foldl seedStep (store, n)).1.find?
          fun g => g.food_id == f.food_id).isSome) = true := by
  induction foods with
  | nil => intro store n f hf; simp at hf
  | cons f₀ rest ih =>
      intro store n f hf
      rw [List.foldl_cons]
      rcases List.mem_cons.mp hf with rfl | hf'
      · by_cases h : ((store.find? fun g => g.food_id == f.food_id).isSome) = true
        · have hstep : seedStep (store, n) f = (store, n) := by simp [seedStep, h]
          rw [hstep]
          obtain ⟨ext, hext⟩ := seed_foods_extends rest store n
          rw [hext]
          exact find?_isSome_append _ store ext h
        · have hstep : seedStep (store, n) f = (store ++ [f], n + 1) := by
            simp [seedStep, h]
          rw [hstep]
          obtain ⟨ext, hext⟩ := seed_foods_extends rest (store ++ [f]) (n + 1)
          rw [hext, List.append_assoc]
          apply find?_isSome_append_right
          have hrefl : (f.food_id == f.food_id) = true := beq_self_eq_true _
          rw [show ([f] ++ ext) = f :: ext from rfl]
          have hfind := List.find?_cons_of_pos
            (p := fun g => g.food_id == f.food_id) (a := f) ext hrefl
          rw [hfind]
          rfl
      · exact ih (seedStep (store, n) f₀).1 (seedStep (store, n) f₀).2 f hf'

lemma seed_foods_noop (foods : List Food) :
    ∀ (store : List Food) (n : ℕ),
      (∀ f ∈ foods,
        ((store.find? fun g => g.food_id == f.food_id).isSome) = true) →
      foods.foldl seedStep (store, n) = (store, n) := by
  induction foods with
  | nil => intro store n _; rfl
  | cons f rest ih =>
      intro store n h
      rw [List.foldl_cons]
      have hstep : seedStep (store, n) f = (store, n) := by
        simp [seedStep, h f (List.mem_cons_self f rest)]
      rw [hstep]
      exact ih store n fun g hg => h g (List.mem_cons_of_mem _ hg)

/-- C10: seeding is idempotent — re-running `seed_foods` with the same food
list on the already-seeded table inserts nothing (returns 0) and leaves every
existing row unchanged, because foods whose `food_id` already exists are
skipped. -/
theorem seed_foods_idempotent (store foods : List Food) :
    seed_foods (seed_foods store foods).1 foods
      = ((seed_foods store foods).1, 0) := by
  unfold seed_foods
  exact seed_foods_noop foods _ 0 fun f hf =>
    seed_foods_ids_present foods store 0 f hf
